import Mathlib

/-!
Shallow embedding of the coupled unsaturated-flow / solute-transport
simulator in soleimani_et_al_2009.cc, restricted to the parts needed to
settle the frozen claims: the constitutive hydraulic-properties model,
the per-element sanity checks of the transport assembly, the Picard
iteration of one physical time step, and the phase state machine with
its time-step controller.

C++ doubles are embedded as real numbers for the constitutive model
(whose formulas use transcendental powers) and as rationals for the
control logic (which only compares, halves and doubles).  Functions
that throw numeric codes in the source are embedded as Except Int.
For the transport assembly checks, which explicitly test for NaN and
infinity, doubles are embedded as a four-constructor type FP carrying
a rational payload in the finite case, with IEEE comparison semantics
(every comparison involving NaN is false).
-/

namespace Soleimani

/- ----------------------------------------------------------------
   Hydraulic_Properties (source lines 66-342)
   ---------------------------------------------------------------- -/

structure Hydraulic_Properties where
  type_of_hydraulic_properties : String
  moisture_content_saturation : ℝ
  moisture_content_residual : ℝ
  hydraulic_conductivity_saturated : ℝ
  van_genuchten_alpha : ℝ
  van_genuchten_n : ℝ
  van_genuchten_m : ℝ

/-- Constructor of Hydraulic_Properties (source lines 115-131): stores the
six arguments and derives van_genuchten_m = 1 - 1/van_genuchten_n. -/
noncomputable def Hydraulic_Properties.make
    (type_of_hydraulic_properties_ : String)
    (moisture_content_saturation_ moisture_content_residual_
     hydraulic_conductivity_saturated_
     van_genuchten_alpha_ van_genuchten_n_ : ℝ) : Hydraulic_Properties :=
  { type_of_hydraulic_properties := type_of_hydraulic_properties_
    moisture_content_saturation := moisture_content_saturation_
    moisture_content_residual := moisture_content_residual_
    hydraulic_conductivity_saturated := hydraulic_conductivity_saturated_
    van_genuchten_alpha := van_genuchten_alpha_
    van_genuchten_n := van_genuchten_n_
    van_genuchten_m := 1 - 1 / van_genuchten_n_ }

/-- get_specific_moisture_capacity (source lines 133-164).  In the
haverkamp branch the squaring in the denominator is pow with integer
exponent 2, embedded as a natural power. -/
noncomputable def Hydraulic_Properties.get_specific_moisture_capacity
    (hp : Hydraulic_Properties) (pressure_head : ℝ) : Except Int ℝ :=
  if hp.type_of_hydraulic_properties = "haverkamp_et_al_1977" then
    Except.ok (-1 * (1.611e6) *
      (hp.moisture_content_saturation - hp.moisture_content_residual) *
      (3.96) * pressure_head * Real.rpow |pressure_head| ((3.96) - 2) /
      ((1.611e6) + Real.rpow |pressure_head| (3.96)) ^ 2)
  else if hp.type_of_hydraulic_properties = "van_genuchten_1980" then
    let ph := if pressure_head ≥ 0 then (-0.01 : ℝ) else pressure_head
    Except.ok (-1 * hp.van_genuchten_alpha * hp.van_genuchten_m * hp.van_genuchten_n *
      (hp.moisture_content_saturation - hp.moisture_content_residual) *
      Real.rpow (hp.van_genuchten_alpha * |ph|) (hp.van_genuchten_n - 1) *
      Real.rpow (1 + Real.rpow (hp.van_genuchten_alpha * |ph|) hp.van_genuchten_n)
        (-1 * hp.van_genuchten_m - 1) *
      ph / |ph|)
  else
    Except.error (-1)

/-- get_effective_total_saturation (source lines 166-186): defined only
for the van Genuchten family, 1 for nonnegative pressure head. -/
noncomputable def Hydraulic_Properties.get_effective_total_saturation
    (hp : Hydraulic_Properties) (pressure_head : ℝ) : Except Int ℝ :=
  if hp.type_of_hydraulic_properties = "van_genuchten_1980" then
    Except.ok (if pressure_head ≥ 0 then (1 : ℝ)
      else 1 / Real.rpow
        (1 + Real.rpow (hp.van_genuchten_alpha * |pressure_head|) hp.van_genuchten_n)
        hp.van_genuchten_m)
  else
    Except.error (-1)

/-- get_effective_biomass_saturation (source lines 196-210): ratio of
biomass volume fraction to the saturation headroom, clamped above at 1
(and nowhere clamped below). -/
noncomputable def Hydraulic_Properties.get_effective_biomass_saturation
    (hp : Hydraulic_Properties)
    (biomass_concentration biomass_dry_density : ℝ) : ℝ :=
  let actual_biomass_saturation := biomass_concentration / biomass_dry_density
  let effective_biomass_saturation := actual_biomass_saturation /
    (1 - hp.moisture_content_residual / hp.moisture_content_saturation)
  if effective_biomass_saturation > 1 then 1 else effective_biomass_saturation

/-- get_effective_free_saturation (source lines 220-233): total minus
biomass effective saturation, clamped below at 0; propagates the throw
of get_effective_total_saturation. -/
noncomputable def Hydraulic_Properties.get_effective_free_saturation
    (hp : Hydraulic_Properties)
    (pressure_head biomass_concentration biomass_dry_density : ℝ) : Except Int ℝ :=
  match hp.get_effective_total_saturation pressure_head with
  | Except.error e => Except.error e
  | Except.ok ets =>
    let efs := ets - hp.get_effective_biomass_saturation biomass_concentration
      biomass_dry_density
    Except.ok (if efs ≤ 0 then 0 else efs)

/-- get_hydraulic_conductivity (source lines 235-325).  Exponents that
are integer literals in the source (19/6 evaluates to 3 by C++ integer
division, and the exponent 2 in the porosity-reduction laws) are
embedded as natural powers; exponents written as floating literals or
expressions are embedded with rpow. -/
noncomputable def Hydraulic_Properties.get_hydraulic_conductivity
    (hp : Hydraulic_Properties) (pressure_head : ℝ)
    (biomass_concentration biomass_dry_density : ℝ)
    (relative_permeability_model : String) : Except Int ℝ :=
  if hp.type_of_hydraulic_properties = "haverkamp_et_al_1977" then
    Except.ok (hp.hydraulic_conductivity_saturated * (1.175e6) /
      ((1.175e6) + Real.rpow |pressure_head| (4.74)))
  else if hp.type_of_hydraulic_properties = "van_genuchten_1980" then
    match hp.get_effective_total_saturation pressure_head with
    | Except.error e => Except.error e
    | Except.ok ets0 =>
      let ebs := hp.get_effective_biomass_saturation biomass_concentration
        biomass_dry_density
      let ets := if ebs > ets0 then ebs else ets0
      if relative_permeability_model = "soleimani" then
        Except.ok (hp.hydraulic_conductivity_saturated *
          (Real.rpow ets (0.5) *
           Real.rpow
             (Real.rpow (1 - Real.rpow ebs (1 / hp.van_genuchten_m)) hp.van_genuchten_m -
              Real.rpow (1 - Real.rpow ets (1 / hp.van_genuchten_m)) hp.van_genuchten_m)
             2))
      else if relative_permeability_model = "clement" then
        Except.ok (hp.hydraulic_conductivity_saturated *
          (if biomass_concentration / biomass_dry_density < 1 then
            (1 - biomass_concentration / biomass_dry_density) ^ (3 : ℕ)
          else 0))
      else if relative_permeability_model = "okubo_and_matsumoto" then
        Except.ok (hp.hydraulic_conductivity_saturated *
          (if biomass_concentration / biomass_dry_density < 1 then
            (1 - biomass_concentration / biomass_dry_density) ^ (2 : ℕ)
          else 0))
      else if relative_permeability_model = "vandevivere" then
        Except.ok (hp.hydraulic_conductivity_saturated *
          (if biomass_concentration / biomass_dry_density < 1 then
            let plug_hydraulic_conductivity : ℝ := 0.00025
            let critical_biovolume_fraction : ℝ := 0.1
            let biovolume_fraction := biomass_concentration / biomass_dry_density
            let phi := Real.exp (-0.5 *
              (biovolume_fraction / critical_biovolume_fraction) ^ (2 : ℕ))
            phi * Real.rpow (1 - biovolume_fraction) 2 +
              (1 - phi) * plug_hydraulic_conductivity / (plug_hydraulic_conductivity +
                biovolume_fraction * (1 - plug_hydraulic_conductivity))
          else 0))
      else
        Except.error (-1)
  else
    Except.error (-1)

/- ----------------------------------------------------------------
   Transport assembly sanity checks (source lines 1150-1238)
   ---------------------------------------------------------------- -/

/-- Embedded IEEE double for the transport assembly checks: a finite
rational, NaN, plus or minus infinity. -/
inductive FP where
  | num : ℚ → FP
  | nan : FP
  | inf : FP
  | ninf : FP
deriving DecidableEq

def FP.isNan : FP → Bool
  | FP.nan => true
  | _ => false

def FP.isFinite : FP → Bool
  | FP.num _ => true
  | _ => false

/-- IEEE strict less-than: false whenever an operand is NaN. -/
def FP.lt : FP → FP → Bool
  | FP.num a, FP.num b => decide (a < b)
  | FP.num _, FP.inf => true
  | FP.ninf, FP.num _ => true
  | FP.ninf, FP.inf => true
  | _, _ => false

/-- IEEE less-or-equal: false whenever an operand is NaN. -/
def FP.le : FP → FP → Bool
  | FP.num a, FP.num b => decide (a ≤ b)
  | FP.num _, FP.inf => true
  | FP.ninf, FP.num _ => true
  | FP.ninf, FP.inf => true
  | FP.ninf, FP.ninf => true
  | FP.inf, FP.inf => true
  | _, _ => false

def FP.gt (a b : FP) : Bool := FP.lt b a

def FP.ge (a b : FP) : Bool := FP.le b a

/-- A value that can arise as the norm of a vector of doubles: a
nonnegative finite number, NaN, or plus infinity. -/
def FP.normLike : FP → Bool
  | FP.num q => decide (0 ≤ q)
  | FP.ninf => false
  | _ => true

/-- Per-element data entering the velocity / Peclet sanity checks of
assemble_system_transport.  The velocity norms are the cell-averaged
norms before the small-velocity adjustment; Peclet, beta and tau are
the values the floating formulas of lines 1213-1219 produce when the
computing branch is taken. -/
structure TransportCellData where
  new_velocity_norm : FP
  old_velocity_norm : FP
  new_diffusion_value : FP
  old_diffusion_value : FP
  Peclet : FP
  beta : FP
  tau : FP
deriving DecidableEq

/-- Small-velocity adjustment (source lines 1181-1189): if the new
velocity norm is below 1e-6 both velocities are zeroed; if the new is
at least 1e-6 while the old is below 1e-6 the old is set to the new. -/
def adjustVelocities (newV oldV : FP) : FP × FP :=
  if FP.lt newV (FP.num (1/1000000)) then (FP.num 0, FP.num 0)
  else if FP.ge newV (FP.num (1/1000000)) && FP.lt oldV (FP.num (1/1000000)) then
    (newV, newV)
  else (newV, oldV)

/-- The sanity checks of one element of assemble_system_transport
(source lines 1181-1238), returning the checked Peclet, beta and tau
(each defaulted to 0 when the computing branch is not taken).  Every
throw in the source is a throw of -1. -/
def checkTransportCell (c : TransportCellData) : Except Int (FP × FP × FP) :=
  let vs := adjustVelocities c.new_velocity_norm c.old_velocity_norm
  if vs.1.isNan || vs.2.isNan then Except.error (-1)
  else if !vs.1.isFinite || !vs.2.isFinite then Except.error (-1)
  else
    let pbt :=
      if FP.ge vs.1 (FP.num (1/1000000)) &&
         FP.gt c.new_diffusion_value (FP.num (1/10000000000)) &&
         FP.gt c.old_diffusion_value (FP.num (1/10000000000)) then
        (c.Peclet, c.beta, c.tau)
      else (FP.num 0, FP.num 0, FP.num 0)
    if FP.lt pbt.1 (FP.num 0) || FP.lt pbt.2.1 (FP.num 0) ||
       FP.lt pbt.2.2 (FP.num 0) then Except.error (-1)
    else if pbt.1.isNan || pbt.2.1.isNan || pbt.2.2.isNan then Except.error (-1)
    else if !pbt.1.isFinite || !pbt.2.1.isFinite || !pbt.2.2.isFinite then
      Except.error (-1)
    else Except.ok pbt

/-- The element loop of assemble_system_transport: the sanity checks of
every element must pass, the first failing element aborts the assembly
by throwing. -/
def assemble_system_transport (cells : List TransportCellData) :
    Except Int (List (FP × FP × FP)) :=
  cells.mapM checkTransportCell

/-- Element exhibiting the masking of a non-finite old velocity: the
new velocity norm is zero, so both velocities are zeroed before the
NaN and finiteness checks run. -/
def maskedNanCell : TransportCellData :=
  { new_velocity_norm := FP.num 0
    old_velocity_norm := FP.nan
    new_diffusion_value := FP.num 0
    old_diffusion_value := FP.num 0
    Peclet := FP.num 0
    beta := FP.num 0
    tau := FP.num 0 }

/- ----------------------------------------------------------------
   Phase state machine and time controller (constructor lines 525-575,
   run() lines 2390-2778)
   ---------------------------------------------------------------- -/

/-- The three global phase booleans of the source. -/
structure PhaseFlags where
  transient_drying : Bool
  transient_saturation : Bool
  transient_transport : Bool
deriving DecidableEq

/-- Initial phase flags chosen from the initial_state parameter in the
constructor (source lines 544-575); an unrecognized name throws 1. -/
def initialPhaseFlags (initial_state : String) : Except Int PhaseFlags :=
  if initial_state = "default" || initial_state = "final" then
    Except.ok ⟨true, false, false⟩
  else if initial_state = "dry" then
    Except.ok ⟨false, true, false⟩
  else if initial_state = "saturated" then
    Except.ok ⟨false, false, true⟩
  else if initial_state = "no_drying" then
    Except.ok ⟨false, true, false⟩
  else
    Except.error 1

/-- The part of the simulation state read and written by the phase
checks and the time-step controller of run(). -/
structure CommitState where
  flags : PhaseFlags
  figure_count : ℕ
  redefine_time_step : Bool
  time_for_dry_conditions : ℚ
  time_for_saturated_conditions : ℚ
  milestone_time : ℚ
  time : ℚ
deriving DecidableEq

/-- The constructor initialization of the commit-relevant fields
(source lines 525-533). -/
def initialCommitState (f : PhaseFlags) : CommitState :=
  { flags := f
    figure_count := 0
    redefine_time_step := false
    time_for_dry_conditions := 0
    time_for_saturated_conditions := 0
    milestone_time := 0
    time := 0 }

/-- The drying-to-saturation check of run() (source lines 2521-2564),
executed on a committed step while transient_drying holds: the ratio of
the top pressure to richards_bottom_fixed_value - domain_size must be
within 3.1e-4 of 1. -/
def dryingCheck (richards_bottom_fixed_value domain_size pressure_at_top : ℚ)
    (s : CommitState) : CommitState :=
  if s.flags.transient_drying then
    let relative_error_drying :=
      pressure_at_top / (richards_bottom_fixed_value - domain_size)
    if |1 - relative_error_drying| < 31/100000 then
      { s with
        figure_count := 0
        flags := { s.flags with transient_drying := false, transient_saturation := true }
        redefine_time_step := true
        time_for_dry_conditions := s.time
        milestone_time := s.time }
    else s
  else s

/-- The saturation error measures of run() (source lines 2581-2598):
both stay at their initialization 0 unless the top Richards boundary
condition is of fixed-pressure kind. -/
def saturationErrors (richards_fixed_at_top : Bool) (flow_at_top flow_at_bottom : ℚ) :
    ℚ × ℚ :=
  if richards_fixed_at_top then
    (abs (1 - abs (flow_at_top / flow_at_bottom)), abs (flow_at_top + flow_at_bottom))
  else (0, 0)

/-- The saturation-to-transport check of run() (source lines 2581-2635),
executed on a committed step while transient_saturation holds and
coupled transport is enabled. -/
def saturationCheck (coupled_transport richards_fixed_at_top : Bool)
    (flow_at_top flow_at_bottom : ℚ) (s : CommitState) : CommitState :=
  if s.flags.transient_saturation && coupled_transport then
    let errs := saturationErrors richards_fixed_at_top flow_at_top flow_at_bottom
    if errs.1 < 2/100 ∨ errs.2 < 3/1000000 then
      { s with
        flags := { s.flags with transient_saturation := false, transient_transport := true }
        redefine_time_step := true
        figure_count := 0
        time_for_saturated_conditions := s.time - s.milestone_time
        milestone_time := s.time }
    else s
  else s

/-- One committed step of the phase state machine: the time advance of
line 2509 followed by the two phase checks, which run() skips entirely
in transport test mode. -/
def commitPhaseUpdate (test_transport coupled_transport richards_fixed_at_top : Bool)
    (richards_bottom_fixed_value domain_size pressure_at_top
     flow_at_top flow_at_bottom time_step : ℚ) (s : CommitState) : CommitState :=
  let s := { s with time := s.time + time_step }
  if test_transport then s
  else
    saturationCheck coupled_transport richards_fixed_at_top flow_at_top flow_at_bottom
      (dryingCheck richards_bottom_fixed_value domain_size pressure_at_top s)

/-- The states of the phase machine reachable from a valid initial
state by committed time steps with arbitrary inputs. -/
inductive Reachable : CommitState → Prop where
  | init : ∀ (name : String) (f : PhaseFlags),
      initialPhaseFlags name = Except.ok f → Reachable (initialCommitState f)
  | step : ∀ (s : CommitState) (tt cp ft : Bool) (bfv dsz pt fat fab ts : ℚ),
      Reachable s → Reachable (commitPhaseUpdate tt cp ft bfv dsz pt fat fab ts s)

def exactlyOnePhase (f : PhaseFlags) : Bool :=
  (f.transient_drying && !f.transient_saturation && !f.transient_transport) ||
  (!f.transient_drying && f.transient_saturation && !f.transient_transport) ||
  (!f.transient_drying && !f.transient_saturation && f.transient_transport)

/-- Position of a phase in the drying, saturation, transport order. -/
def phaseRank (f : PhaseFlags) : ℕ :=
  if f.transient_drying then 0 else if f.transient_saturation then 1 else 2

/-- The per-phase clamping of the time step (source lines 2749-2757):
floor 1 always, ceiling 1 while drying or saturating, ceiling 60 while
transporting. -/
def clampTimeStep (f : PhaseFlags) (ts : ℚ) : ℚ :=
  let ts := if ts < 1 then 1 else ts
  if ts > 1 && f.transient_drying then 1
  else if ts > 1 && f.transient_saturation then 1
  else if ts > 60 && f.transient_transport then 60
  else ts

/-- The per-committed-step time-step update of run() (source lines
2734-2758): reset to 1 when a phase transition set redefine_time_step,
else doubled when the Picard loop took fewer than 15 passes (the two
branches of lines 2743-2746 are textually identical), then clamped.
Skipped entirely in transport test mode. -/
def updateTimeStep (test_transport : Bool) (f : PhaseFlags)
    (redefine_time_step : Bool) (step : ℕ) (ts : ℚ) : ℚ × Bool :=
  if test_transport then (ts, redefine_time_step)
  else
    let p : ℚ × Bool :=
      if redefine_time_step then (1, false)
      else if step < 15 then (ts * 2, redefine_time_step)
      else (ts, redefine_time_step)
    (clampTimeStep f p.1, p.2)

/- ----------------------------------------------------------------
   Picard loop of one physical time step (source lines 2405-2507)
   ---------------------------------------------------------------- -/

/-- Configuration flags the Picard loop branches on.  solve_flow is set
to true in the constructor and never written again. -/
structure PicardCfg where
  transient_transport : Bool
  test_transport : Bool
  solve_flow : Bool
  coupled_transport : Bool
deriving DecidableEq

/-- Loop-local state of the Picard iteration of one time step. -/
structure PicardState where
  time_step : ℚ
  relative_error_flow : ℚ
  relative_error_transport : ℚ
  old_norm_transport : ℚ
  iteration : ℕ
  step : ℕ
  remain_in_loop : Bool
deriving DecidableEq

/-- Loop-local initialization of run() (source lines 2405-2413). -/
def initPicardState (ts : ℚ) : PicardState :=
  { time_step := ts
    relative_error_flow := 1000
    relative_error_transport := 0
    old_norm_transport := 0
    iteration := 0
    step := 0
    remain_in_loop := true }

/-- Stall recovery at the top of the loop body (source lines 2416-2427):
when the transport phase is active and the iteration counter has
reached 40, halve the time step and reset both error measures and the
iteration counter. -/
def stallCheck (cfg : PicardCfg) (s : PicardState) : PicardState :=
  if cfg.transient_transport && s.iteration == 40 then
    { s with
      time_step := s.time_step / 2
      relative_error_flow := 1000
      relative_error_transport := 0
      iteration := 0 }
  else s

/-- The solve stage of the loop body (source lines 2439-2462): the flow
solve updates the flow relative error from the squared norms of the old
and new pressure iterates; the transport solve updates the transport
relative error from the squared norms of the transport iterates.  The
three norm arguments are the values the linear solves produce this
pass. -/
def solveStage (cfg : PicardCfg)
    (old_norm_flow new_norm_flow new_norm_transport : ℚ)
    (s : PicardState) : PicardState :=
  let s :=
    if cfg.solve_flow && !cfg.test_transport then
      { s with relative_error_flow := |1 - old_norm_flow / new_norm_flow| }
    else s
  if (cfg.transient_transport || cfg.test_transport) && cfg.coupled_transport then
    { s with
      relative_error_transport :=
        100 * abs (1 - abs (s.old_norm_transport / new_norm_transport))
      old_norm_transport := new_norm_transport }
  else s

/-- The convergence test of the loop body (source lines 2469-2480). -/
def convergenceCheck (cfg : PicardCfg) (s : PicardState) : PicardState :=
  if !cfg.test_transport then
    if s.relative_error_flow < 1/100000000 ∧ s.relative_error_transport ≤ 1/1000 ∧
        s.iteration ≠ 0 then
      { s with remain_in_loop := false }
    else s
  else
    if s.relative_error_transport < 15/100000000 then
      { s with remain_in_loop := false }
    else s

/-- One pass of the do-while body of run() (source lines 2414-2507):
stall recovery, solves, convergence test, counter increments. -/
def picardPass (cfg : PicardCfg)
    (old_norm_flow new_norm_flow new_norm_transport : ℚ)
    (s : PicardState) : PicardState :=
  let s := stallCheck cfg s
  let s := solveStage cfg old_norm_flow new_norm_flow new_norm_transport s
  let s := convergenceCheck cfg s
  { s with iteration := s.iteration + 1, step := s.step + 1 }

/- ----------------------------------------------------------------
   Helper lemmas
   ---------------------------------------------------------------- -/

theorem stallCheck_remain (cfg : PicardCfg) (s : PicardState) :
    (stallCheck cfg s).remain_in_loop = s.remain_in_loop := by
  unfold stallCheck; split <;> rfl

theorem solveStage_remain (cfg : PicardCfg) (a b c : ℚ) (s : PicardState) :
    (solveStage cfg a b c s).remain_in_loop = s.remain_in_loop := by
  unfold solveStage; split <;> split <;> rfl

theorem stallCheck_old_norm (cfg : PicardCfg) (s : PicardState) :
    (stallCheck cfg s).old_norm_transport = s.old_norm_transport := by
  unfold stallCheck; split <;> rfl

theorem updateTimeStep_eq (f : PhaseFlags) (r : Bool) (step : ℕ) (ts : ℚ) :
    updateTimeStep false f r step ts =
      (clampTimeStep f (if r then 1 else if step < 15 then ts * 2 else ts),
       if r then false else r) := by
  cases r <;> by_cases hs : step < 15 <;> simp [updateTimeStep, hs]

theorem clampTimeStep_ge_one (f : PhaseFlags) (ts : ℚ) : 1 ≤ clampTimeStep f ts := by
  unfold clampTimeStep
  set t := if ts < 1 then (1 : ℚ) else ts with ht
  dsimp only
  have h1t : 1 ≤ t := by
    rw [ht]
    split
    · exact le_refl 1
    · rename_i h
      linarith [not_lt.mp h]
  split_ifs <;> first | exact h1t | norm_num

theorem clampTimeStep_le_one (f : PhaseFlags) (ts : ℚ)
    (h : f.transient_drying = true ∨ f.transient_saturation = true) :
    clampTimeStep f ts ≤ 1 := by
  unfold clampTimeStep
  set t := if ts < 1 then (1 : ℚ) else ts with ht
  dsimp only
  split_ifs with hA hB hC
  · norm_num
  · norm_num
  · simp only [Bool.and_eq_true, decide_eq_true_eq] at hA hB hC
    rcases h with h | h
    · exact absurd ⟨by linarith [hC.1], h⟩ hA
    · exact absurd ⟨by linarith [hC.1], h⟩ hB
  · simp only [Bool.and_eq_true, decide_eq_true_eq] at hA hB
    rcases h with h | h
    · have hle : ¬ t > 1 := fun hgt => hA ⟨hgt, h⟩
      linarith [not_lt.mp hle]
    · have hle : ¬ t > 1 := fun hgt => hB ⟨hgt, h⟩
      linarith [not_lt.mp hle]

theorem clampTimeStep_le_sixty (f : PhaseFlags) (ts : ℚ)
    (h : f.transient_transport = true) :
    clampTimeStep f ts ≤ 60 := by
  unfold clampTimeStep
  set t := if ts < 1 then (1 : ℚ) else ts with ht
  dsimp only
  split_ifs with hA hB hC
  · norm_num
  · norm_num
  · norm_num
  · simp only [Bool.and_eq_true, decide_eq_true_eq] at hC
    have hle : ¬ t > 60 := fun hgt => hC ⟨hgt, h⟩
    linarith [not_lt.mp hle]

theorem updateTimeStep_redefine (f : PhaseFlags) (step : ℕ) (ts : ℚ) :
    updateTimeStep false f true step ts = (1, false) := by
  rw [updateTimeStep_eq]
  norm_num [clampTimeStep]

theorem adjust_fst (A B : FP) (hA : FP.lt A (FP.num (1/1000000)) = false) :
    (adjustVelocities A B).1 = A := by
  unfold adjustVelocities
  rw [hA]
  simp only [Bool.false_eq_true, if_false]
  split <;> rfl

theorem adjust_keep (A B : FP) (hA : FP.lt A (FP.num (1/1000000)) = false)
    (hB : FP.lt B (FP.num (1/1000000)) = false) :
    adjustVelocities A B = (A, B) := by
  unfold adjustVelocities
  rw [hA, hB]
  simp

theorem checkTransportCell_error_of_nonfinite (c : TransportCellData)
    (h : (adjustVelocities c.new_velocity_norm c.old_velocity_norm).1.isFinite = false ∨
         (adjustVelocities c.new_velocity_norm c.old_velocity_norm).2.isFinite = false) :
    checkTransportCell c = Except.error (-1) := by
  unfold checkTransportCell
  dsimp only
  by_cases h1 : ((adjustVelocities c.new_velocity_norm c.old_velocity_norm).1.isNan ||
      (adjustVelocities c.new_velocity_norm c.old_velocity_norm).2.isNan) = true
  · rw [if_pos h1]
  · rw [if_neg h1]
    have h2 : (!(adjustVelocities c.new_velocity_norm c.old_velocity_norm).1.isFinite ||
        !(adjustVelocities c.new_velocity_norm c.old_velocity_norm).2.isFinite) = true := by
      rcases h with h | h <;> simp [h]
    rw [if_pos h2]

/- ----------------------------------------------------------------
   Claim theorems
   ---------------------------------------------------------------- -/

/-- Claim C1: with transport test mode disabled, one pass of the Picard
loop exits exactly when the flow relative error (the absolute deviation
of the ratio of squared iterate norms from 1) is below 1e-8, the
transport relative error is at most 1e-3 (the latter staying untouched,
hence 0, while the transport phase is inactive), and the iteration
counter is nonzero; and when the iteration counter reaches 40 with the
transport phase active, the pass first halves the time step and resets
both error measures and the iteration counter, the loop continuing
within the same time step. -/
theorem picard_loop_exit_and_stall (cfg : PicardCfg)
    (old_norm_flow new_norm_flow new_norm_transport : ℚ) (s : PicardState)
    (htest : cfg.test_transport = false) (hrem : s.remain_in_loop = true) :
    ((picardPass cfg old_norm_flow new_norm_flow new_norm_transport s).remain_in_loop
        = false ↔
      ((solveStage cfg old_norm_flow new_norm_flow new_norm_transport
          (stallCheck cfg s)).relative_error_flow < 1/100000000 ∧
       (solveStage cfg old_norm_flow new_norm_flow new_norm_transport
          (stallCheck cfg s)).relative_error_transport ≤ 1/1000 ∧
       (solveStage cfg old_norm_flow new_norm_flow new_norm_transport
          (stallCheck cfg s)).iteration ≠ 0)) ∧
    (cfg.solve_flow = true →
      (solveStage cfg old_norm_flow new_norm_flow new_norm_transport
          (stallCheck cfg s)).relative_error_flow
        = |1 - old_norm_flow / new_norm_flow|) ∧
    (cfg.transient_transport = true → cfg.coupled_transport = true →
      (solveStage cfg old_norm_flow new_norm_flow new_norm_transport
          (stallCheck cfg s)).relative_error_transport
        = 100 * abs (1 - abs (s.old_norm_transport / new_norm_transport))) ∧
    (∀ ts : ℚ, (initPicardState ts).relative_error_transport = 0) ∧
    (cfg.transient_transport = false →
      (picardPass cfg old_norm_flow new_norm_flow new_norm_transport
          s).relative_error_transport = s.relative_error_transport) ∧
    (cfg.transient_transport = true → s.iteration = 40 →
      stallCheck cfg s =
        { s with
          time_step := s.time_step / 2
          relative_error_flow := 1000
          relative_error_transport := 0
          iteration := 0 }) := by
  refine ⟨?_, ?_, ?_, fun _ => rfl, ?_, ?_⟩
  · have hpp : (picardPass cfg old_norm_flow new_norm_flow new_norm_transport
          s).remain_in_loop
        = (convergenceCheck cfg (solveStage cfg old_norm_flow new_norm_flow
            new_norm_transport (stallCheck cfg s))).remain_in_loop := rfl
    set s2 := solveStage cfg old_norm_flow new_norm_flow new_norm_transport
      (stallCheck cfg s) with hs2
    have h2 : s2.remain_in_loop = true := by
      rw [hs2, solveStage_remain, stallCheck_remain, hrem]
    rw [hpp]
    unfold convergenceCheck
    rw [htest]
    simp only [Bool.not_false, eq_self_iff_true, if_true]
    split
    · rename_i hcc
      constructor
      · intro _
        exact hcc
      · intro _
        rfl
    · rename_i hcc
      constructor
      · intro hfalse
        rw [h2] at hfalse
        exact absurd hfalse (by simp)
      · intro hand
        exact absurd hand hcc
  · intro hsf
    simp [solveStage, hsf, htest]
    split <;> rfl
  · intro htt hcp
    simp [solveStage, htt, hcp]
    split <;> simp [stallCheck_old_norm]
  · intro htt
    have h1 : stallCheck cfg s = s := by simp [stallCheck, htt]
    have hcond : ((cfg.transient_transport || cfg.test_transport) &&
        cfg.coupled_transport) = false := by
      rw [htt, htest]; rfl
    have key2 : (solveStage cfg old_norm_flow new_norm_flow new_norm_transport
        s).relative_error_transport = s.relative_error_transport := by
      unfold solveStage
      rw [hcond]
      simp only [Bool.false_eq_true, if_false]
      split <;> rfl
    have key : (convergenceCheck cfg (solveStage cfg old_norm_flow new_norm_flow
        new_norm_transport s)).relative_error_transport
        = (solveStage cfg old_norm_flow new_norm_flow
            new_norm_transport s).relative_error_transport := by
      unfold convergenceCheck
      split <;> split <;> rfl
    show (convergenceCheck cfg (solveStage cfg old_norm_flow new_norm_flow
      new_norm_transport (stallCheck cfg s))).relative_error_transport
        = s.relative_error_transport
    rw [h1, key, key2]
  · intro htt h40
    simp [stallCheck, htt, h40]

/-- Witness for claim C1 at a concrete pass with transport inactive. -/
theorem picard_loop_exit_and_stall_witness :
    (picardPass ⟨false, false, true, false⟩ 1 1 1
      ⟨8, 1000, 0, 0, 1, 0, true⟩).remain_in_loop = false :=
  (picard_loop_exit_and_stall ⟨false, false, true, false⟩ 1 1 1
    ⟨8, 1000, 0, 0, 1, 0, true⟩ rfl rfl).1.mpr
    (by norm_num [solveStage, stallCheck])

/-- Claim C2: with transport test mode disabled, the committed-step
time-step update forces the step size to 1 when a phase transition set
redefine_time_step, otherwise doubles it when the Picard loop took
fewer than 15 passes before clamping; the updated step size is always
at least 1, at most 1 while drying or saturating, and at most 60 while
transporting. -/
theorem time_step_update_policy (f : PhaseFlags) (redefine : Bool) (step : ℕ)
    (ts : ℚ) :
    updateTimeStep false f true step ts = (1, false) ∧
    (redefine = false → step < 15 →
      updateTimeStep false f redefine step ts = (clampTimeStep f (ts * 2), false)) ∧
    1 ≤ (updateTimeStep false f redefine step ts).1 ∧
    (f.transient_drying = true ∨ f.transient_saturation = true →
      (updateTimeStep false f redefine step ts).1 ≤ 1) ∧
    (f.transient_transport = true → (updateTimeStep false f redefine step ts).1 ≤ 60) := by
  refine ⟨updateTimeStep_redefine f step ts, ?_, ?_, ?_, ?_⟩
  · intro hr hs
    rw [updateTimeStep_eq]
    simp [hr, hs]
  · rw [updateTimeStep_eq]
    exact clampTimeStep_ge_one f _
  · intro hds
    rw [updateTimeStep_eq]
    exact clampTimeStep_le_one f _ hds
  · intro htr
    rw [updateTimeStep_eq]
    exact clampTimeStep_le_sixty f _ htr

/-- Witness for claim C2: a transport-phase step that converged fast is
doubled and clamped. -/
theorem time_step_update_policy_witness :
    updateTimeStep false ⟨false, false, true⟩ false 3 (50 : ℚ) =
      (clampTimeStep ⟨false, false, true⟩ (50 * 2), false) :=
  (time_step_update_policy ⟨false, false, true⟩ false 3 50).2.1 rfl (by decide)

/-- Claim C4: while drying, a committed step leaves the drying phase
exactly when the ratio of the simulated top pressure to the value
richards_bottom_fixed_value - domain_size deviates from 1 by less than
3.1e-4; the transition enters saturation, zeroes the figure counter,
records the elapsed drying time, sets the milestone time to the current
simulation time, and requests the time-step reset that the next update
turns into step size 1. -/
theorem drying_to_saturation_transition
    (richards_bottom_fixed_value domain_size pressure_at_top : ℚ) (s : CommitState)
    (hd : s.flags.transient_drying = true) :
    ((dryingCheck richards_bottom_fixed_value domain_size pressure_at_top
        s).flags.transient_drying = false ↔
      |1 - pressure_at_top / (richards_bottom_fixed_value - domain_size)| < 31/100000) ∧
    (|1 - pressure_at_top / (richards_bottom_fixed_value - domain_size)| < 31/100000 →
      dryingCheck richards_bottom_fixed_value domain_size pressure_at_top s =
        { s with
          figure_count := 0
          flags := { s.flags with transient_drying := false, transient_saturation := true }
          redefine_time_step := true
          time_for_dry_conditions := s.time
          milestone_time := s.time } ∧
      ∀ (step : ℕ) (ts : ℚ),
        (updateTimeStep false
          (dryingCheck richards_bottom_fixed_value domain_size pressure_at_top s).flags
          (dryingCheck richards_bottom_fixed_value domain_size pressure_at_top
            s).redefine_time_step step ts).1 = 1) := by
  constructor
  · by_cases hc :
      |1 - pressure_at_top / (richards_bottom_fixed_value - domain_size)| < 31/100000
    · simp [dryingCheck, hd, hc]
    · simp [dryingCheck, hd, hc]
  · intro hc
    have he : dryingCheck richards_bottom_fixed_value domain_size pressure_at_top s =
        { s with
          figure_count := 0
          flags := { s.flags with transient_drying := false, transient_saturation := true }
          redefine_time_step := true
          time_for_dry_conditions := s.time
          milestone_time := s.time } := by
      simp [dryingCheck, hd, hc]
    refine ⟨he, ?_⟩
    intro step ts
    rw [he]
    rw [updateTimeStep_redefine]

/-- Witness for claim C4 at a concrete triggering top pressure. -/
theorem drying_to_saturation_transition_witness :
    dryingCheck 2 1 1 (initialCommitState ⟨true, false, false⟩) =
      { initialCommitState ⟨true, false, false⟩ with
        figure_count := 0
        flags := ⟨false, true, false⟩
        redefine_time_step := true
        time_for_dry_conditions := 0
        milestone_time := 0 } :=
  ((drying_to_saturation_transition 2 1 1 (initialCommitState ⟨true, false, false⟩)
    rfl).2 (by norm_num)).1

/-- Claim C10: while saturating with coupled transport enabled and a
non-fixed-pressure top Richards boundary condition, both saturation
error measures stay at 0, below their tolerances, so the transition to
the transport phase fires on the very first committed step, whatever
the top and bottom water flows are. -/
theorem saturation_transition_fires_without_fixed_top
    (flow_at_top flow_at_bottom : ℚ) (s : CommitState)
    (hs : s.flags.transient_saturation = true) :
    saturationErrors false flow_at_top flow_at_bottom = (0, 0) ∧
    (saturationCheck true false flow_at_top flow_at_bottom
      s).flags.transient_transport = true ∧
    (saturationCheck true false flow_at_top flow_at_bottom
      s).flags.transient_saturation = false ∧
    (saturationCheck true false flow_at_top flow_at_bottom s).redefine_time_step
      = true := by
  refine ⟨rfl, ?_⟩
  norm_num [saturationCheck, saturationErrors, hs]

/-- Witness for claim C10 with arbitrary unbalanced flows. -/
theorem saturation_transition_fires_without_fixed_top_witness :
    (saturationCheck true false 12345 (-999)
      (initialCommitState ⟨false, true, false⟩)).flags.transient_transport = true :=
  (saturation_transition_fires_without_fixed_top 12345 (-999)
    (initialCommitState ⟨false, true, false⟩) rfl).2.1

theorem commitPhaseUpdate_phase (tt cp ft : Bool) (bfv dsz pt fat fab ts : ℚ)
    (s : CommitState) (h : exactlyOnePhase s.flags = true) :
    exactlyOnePhase (commitPhaseUpdate tt cp ft bfv dsz pt fat fab ts s).flags = true ∧
    phaseRank s.flags ≤ phaseRank (commitPhaseUpdate tt cp ft bfv dsz pt fat fab ts s).flags := by
  obtain ⟨⟨d, sa, tr⟩, fc, rd, t1, t2, mt, tm⟩ := s
  cases tt <;> cases d <;> cases sa <;> cases tr <;>
    simp_all [commitPhaseUpdate, dryingCheck, saturationCheck, exactlyOnePhase,
      phaseRank] <;>
    split_ifs <;> simp_all

/-- Claim C3: every state of the phase machine reachable from a valid
initial state has exactly one of the three phase flags set, and a
committed step never decreases the phase position in the drying,
saturation, transport order. -/
theorem phase_flags_invariant (s : CommitState) (hr : Reachable s) :
    exactlyOnePhase s.flags = true ∧
    ∀ (tt cp ft : Bool) (bfv dsz pt fat fab ts : ℚ),
      phaseRank s.flags ≤
        phaseRank (commitPhaseUpdate tt cp ft bfv dsz pt fat fab ts s).flags := by
  have hone : exactlyOnePhase s.flags = true := by
    induction hr with
    | init name f hf =>
      unfold initialPhaseFlags at hf
      split_ifs at hf <;>
        first
          | (simp only [Except.ok.injEq] at hf
             subst hf
             rfl)
          | simp_all
    | step s tt cp ft bfv dsz pt fat fab ts hs ih =>
      exact (commitPhaseUpdate_phase tt cp ft bfv dsz pt fat fab ts s ih).1
  exact ⟨hone, fun tt cp ft bfv dsz pt fat fab ts =>
    (commitPhaseUpdate_phase tt cp ft bfv dsz pt fat fab ts s hone).2⟩

/-- Witness for claim C3 at the default initial state. -/
theorem phase_flags_invariant_witness :
    exactlyOnePhase (initialCommitState ⟨true, false, false⟩).flags = true :=
  (phase_flags_invariant (initialCommitState ⟨true, false, false⟩)
    (Reachable.init "default" ⟨true, false, false⟩ rfl)).1

/-- Claim C5 counterexample: an element whose cell-averaged old
velocity norm is NaN, hence non-finite, but whose new velocity norm is
zero, passes the transport assembly without throwing, because the
small-velocity adjustment zeroes both velocities before the NaN and
finiteness checks run. -/
theorem transport_check_masks_nonfinite_old_velocity :
    maskedNanCell.old_velocity_norm.isFinite = false ∧
    assemble_system_transport [maskedNanCell] =
      Except.ok [(FP.num 0, FP.num 0, FP.num 0)] := by
  constructor
  · rfl
  · have h1 : checkTransportCell maskedNanCell =
        Except.ok (FP.num 0, FP.num 0, FP.num 0) := by
      unfold checkTransportCell adjustVelocities maskedNanCell
      norm_num [FP.lt, FP.le, FP.ge, FP.gt, FP.isNan, FP.isFinite]
    simp [assemble_system_transport, List.mapM, List.mapM.loop, h1, Except.bind,
      Except.pure]

/-- Claim C5 (amended): under the small-velocity adjustment (which
zeroes both velocities when the new velocity norm is below 1e-6, so a
non-finite old velocity is masked in that case), the per-element checks
of the transport assembly throw whenever the new velocity norm is
non-finite, whenever the old velocity norm is non-finite while the new
one is at least 1e-6, and whenever the computed Peclet number, beta or
tau is non-finite or negative in the branch that computes them; and
when an element passes, its checked Peclet number, beta and tau are
finite and non-negative. -/
theorem transport_assembly_checks (c : TransportCellData)
    (hn : c.new_velocity_norm.normLike = true)
    (ho : c.old_velocity_norm.normLike = true) :
    (c.new_velocity_norm.isFinite = false → checkTransportCell c = Except.error (-1)) ∧
    (c.old_velocity_norm.isFinite = false →
      FP.ge c.new_velocity_norm (FP.num (1/1000000)) = true →
      checkTransportCell c = Except.error (-1)) ∧
    ((FP.ge (adjustVelocities c.new_velocity_norm c.old_velocity_norm).1
        (FP.num (1/1000000)) &&
      FP.gt c.new_diffusion_value (FP.num (1/10000000000)) &&
      FP.gt c.old_diffusion_value (FP.num (1/10000000000))) = true →
      (c.Peclet.isFinite = false ∨ c.Peclet.lt (FP.num 0) = true ∨
       c.beta.isFinite = false ∨ c.beta.lt (FP.num 0) = true ∨
       c.tau.isFinite = false ∨ c.tau.lt (FP.num 0) = true) →
      checkTransportCell c = Except.error (-1)) ∧
    (∀ pe b t, checkTransportCell c = Except.ok (pe, b, t) →
      pe.isFinite = true ∧ pe.lt (FP.num 0) = false ∧
      b.isFinite = true ∧ b.lt (FP.num 0) = false ∧
      t.isFinite = true ∧ t.lt (FP.num 0) = false) := by
  refine ⟨?_, ?_, ?_, ?_⟩
  · intro hfin
    cases hA : c.new_velocity_norm with
    | num q =>
      rw [hA] at hfin
      exact absurd hfin (by simp [FP.isFinite])
    | ninf =>
      rw [hA] at hn
      exact absurd hn (by simp [FP.normLike])
    | nan =>
      apply checkTransportCell_error_of_nonfinite
      left
      rw [hA, adjust_fst FP.nan c.old_velocity_norm rfl]
      rfl
    | inf =>
      apply checkTransportCell_error_of_nonfinite
      left
      rw [hA, adjust_fst FP.inf c.old_velocity_norm rfl]
      rfl
  · intro hfin hge
    have hBlt : FP.lt c.old_velocity_norm (FP.num (1/1000000)) = false := by
      cases hB : c.old_velocity_norm with
      | num q =>
        rw [hB] at hfin
        exact absurd hfin (by simp [FP.isFinite])
      | ninf =>
        rw [hB] at ho
        exact absurd ho (by simp [FP.normLike])
      | nan => rfl
      | inf => rfl
    have hAlt : FP.lt c.new_velocity_norm (FP.num (1/1000000)) = false := by
      cases hA : c.new_velocity_norm with
      | nan => rfl
      | inf => rfl
      | ninf =>
        rw [hA] at hn
        exact absurd hn (by simp [FP.normLike])
      | num q =>
        rw [hA] at hge
        have hq : (1 : ℚ)/1000000 ≤ q := by
          simpa [FP.ge, FP.le] using hge
        simp only [FP.lt, decide_eq_false_iff_not, not_lt]
        exact hq
    apply checkTransportCell_error_of_nonfinite
    right
    rw [adjust_keep c.new_velocity_norm c.old_velocity_norm hAlt hBlt]
    exact hfin
  · intro hbr hbad
    unfold checkTransportCell
    dsimp only
    set vs := adjustVelocities c.new_velocity_norm c.old_velocity_norm with hvs
    by_cases h1 : (vs.1.isNan || vs.2.isNan) = true
    · rw [if_pos h1]
    · rw [if_neg h1]
      by_cases h2 : (!vs.1.isFinite || !vs.2.isFinite) = true
      · rw [if_pos h2]
      · rw [if_neg h2]
        rw [if_pos hbr]
        dsimp only
        by_cases hc1 : (FP.lt c.Peclet (FP.num 0) || FP.lt c.beta (FP.num 0) ||
            FP.lt c.tau (FP.num 0)) = true
        · rw [if_pos hc1]
        · rw [if_neg hc1]
          by_cases hc2 : (c.Peclet.isNan || c.beta.isNan || c.tau.isNan) = true
          · rw [if_pos hc2]
          · rw [if_neg hc2]
            have hc3 : (!c.Peclet.isFinite || !c.beta.isFinite ||
                !c.tau.isFinite) = true := by
              rcases hbad with hb | hb | hb | hb | hb | hb
              · simp [hb]
              · exact absurd (by simp [hb] :
                  (FP.lt c.Peclet (FP.num 0) || FP.lt c.beta (FP.num 0) ||
                   FP.lt c.tau (FP.num 0)) = true) hc1
              · simp [hb]
              · exact absurd (by simp [hb] :
                  (FP.lt c.Peclet (FP.num 0) || FP.lt c.beta (FP.num 0) ||
                   FP.lt c.tau (FP.num 0)) = true) hc1
              · simp [hb]
              · exact absurd (by simp [hb] :
                  (FP.lt c.Peclet (FP.num 0) || FP.lt c.beta (FP.num 0) ||
                   FP.lt c.tau (FP.num 0)) = true) hc1
            rw [if_pos hc3]
  · intro pe b t heq
    unfold checkTransportCell at heq
    dsimp only at heq
    set vs := adjustVelocities c.new_velocity_norm c.old_velocity_norm with hvs
    by_cases h1 : (vs.1.isNan || vs.2.isNan) = true
    · rw [if_pos h1] at heq
      exact absurd heq (by simp)
    · rw [if_neg h1] at heq
      by_cases h2 : (!vs.1.isFinite || !vs.2.isFinite) = true
      · rw [if_pos h2] at heq
        exact absurd heq (by simp)
      · rw [if_neg h2] at heq
        by_cases hbr : (FP.ge vs.1 (FP.num (1/1000000)) &&
            FP.gt c.new_diffusion_value (FP.num (1/10000000000)) &&
            FP.gt c.old_diffusion_value (FP.num (1/10000000000))) = true
        · rw [if_pos hbr] at heq
          dsimp only at heq
          by_cases hc1 : (FP.lt c.Peclet (FP.num 0) || FP.lt c.beta (FP.num 0) ||
              FP.lt c.tau (FP.num 0)) = true
          · rw [if_pos hc1] at heq
            exact absurd heq (by simp)
          · rw [if_neg hc1] at heq
            by_cases hc2 : (c.Peclet.isNan || c.beta.isNan || c.tau.isNan) = true
            · rw [if_pos hc2] at heq
              exact absurd heq (by simp)
            · rw [if_neg hc2] at heq
              by_cases hc3 : (!c.Peclet.isFinite || !c.beta.isFinite ||
                  !c.tau.isFinite) = true
              · rw [if_pos hc3] at heq
                exact absurd heq (by simp)
              · rw [if_neg hc3] at heq
                simp only [Except.ok.injEq, Prod.mk.injEq] at heq
                obtain ⟨hpe, hb2, ht2⟩ := heq
                subst hpe
                subst hb2
                subst ht2
                simp only [Bool.or_eq_true, not_or, Bool.not_eq_true,
                  Bool.not_eq_true'] at hc1 hc3
                refine ⟨?_, ?_, ?_, ?_, ?_, ?_⟩ <;> simp_all
        · rw [if_neg hbr] at heq
          dsimp only at heq
          have hz : FP.lt (FP.num 0) (FP.num 0) = false := by
            norm_num [FP.lt]
          simp only [hz, Bool.or_false, FP.isNan, FP.isFinite, Bool.not_true,
            Bool.or_self, Bool.false_eq_true, if_false, Except.ok.injEq,
            Prod.mk.injEq] at heq
          obtain ⟨hpe, hb2, ht2⟩ := heq
          subst hpe
          subst hb2
          subst ht2
          exact ⟨rfl, hz, rfl, hz, rfl, hz⟩

/-- Witness for the amended claim C5: an element with a NaN new
velocity is rejected by the assembly checks. -/
theorem transport_assembly_checks_witness :
    checkTransportCell
      { new_velocity_norm := FP.nan
        old_velocity_norm := FP.num 0
        new_diffusion_value := FP.num 0
        old_diffusion_value := FP.num 0
        Peclet := FP.num 0
        beta := FP.num 0
        tau := FP.num 0 } = Except.error (-1) :=
  (transport_assembly_checks
    { new_velocity_norm := FP.nan
      old_velocity_norm := FP.num 0
      new_diffusion_value := FP.num 0
      old_diffusion_value := FP.num 0
      Peclet := FP.num 0
      beta := FP.num 0
      tau := FP.num 0 } rfl rfl).1 rfl

/-- Claim C6 counterexample: a configuration of the empirical family
with residual moisture content strictly between 0 and saturation, and
biomass concentration at least the dry density, on which
get_effective_free_saturation throws instead of returning 0, because
get_effective_total_saturation is only implemented for the van
Genuchten family. -/
theorem effective_free_saturation_haverkamp_throws :
    (Hydraulic_Properties.make "haverkamp_et_al_1977" 1 (1/2) 1 1
      2).get_effective_free_saturation 0 2 1 = Except.error (-1) ∧
    (Hydraulic_Properties.make "haverkamp_et_al_1977" 1 (1/2) 1 1
      2).get_effective_free_saturation 0 2 1 ≠ Except.ok 0 := by
  have htot : (Hydraulic_Properties.make "haverkamp_et_al_1977" 1 (1/2) 1 1
      2).get_effective_total_saturation 0 = Except.error (-1) := rfl
  have h : (Hydraulic_Properties.make "haverkamp_et_al_1977" 1 (1/2) 1 1
      2).get_effective_free_saturation 0 2 1 = Except.error (-1) := by
    unfold Hydraulic_Properties.get_effective_free_saturation
    rw [htot]
  exact ⟨h, by rw [h]; exact fun hc => Except.noConfusion hc⟩

/-- Claim C6 (amended): for a van Genuchten configuration with
nonnegative alpha, n at least 1, residual moisture content strictly
between 0 and saturation, and biomass concentration at least the
positive dry density, get_effective_biomass_saturation is exactly 1 and
get_effective_free_saturation returns exactly 0 at every pressure
head. -/
theorem biomass_saturation_clamp (sat res Ks a n conc density : ℝ)
    (hres0 : 0 < res) (hressat : res < sat) (ha : 0 ≤ a) (hn : 1 ≤ n)
    (hdens : 0 < density) (hcge : density ≤ conc) :
    (Hydraulic_Properties.make "van_genuchten_1980" sat res Ks a
      n).get_effective_biomass_saturation conc density = 1 ∧
    ∀ ph : ℝ, (Hydraulic_Properties.make "van_genuchten_1980" sat res Ks a
      n).get_effective_free_saturation ph conc density = Except.ok 0 := by
  have hsatpos : 0 < sat := lt_trans hres0 hressat
  have hr0 : 0 < res / sat := div_pos hres0 hsatpos
  have hr1 : res / sat < 1 := (div_lt_one hsatpos).mpr hressat
  have hdenom : 0 < 1 - res / sat := by linarith
  have hcd1 : 1 ≤ conc / density := (one_le_div hdens).mpr hcge
  have hcd0 : 0 ≤ conc / density := by linarith
  have hstep : conc / density ≤ conc / density / (1 - res / sat) := by
    rw [le_div_iff₀ hdenom]
    exact mul_le_of_le_one_right hcd0 (by linarith)
  have heff1 : 1 ≤ conc / density / (1 - res / sat) := le_trans hcd1 hstep
  have hbio : (Hydraulic_Properties.make "van_genuchten_1980" sat res Ks a
      n).get_effective_biomass_saturation conc density = 1 := by
    unfold Hydraulic_Properties.get_effective_biomass_saturation
      Hydraulic_Properties.make
    dsimp only
    split_ifs with hgt
    · rfl
    · linarith [not_lt.mp hgt]
  refine ⟨hbio, ?_⟩
  intro ph
  have hets : (if ph ≥ 0 then (1 : ℝ)
      else 1 / Real.rpow (1 + Real.rpow (a * |ph|) n) (1 - 1/n)) ≤ 1 := by
    split_ifs with hph
    · exact le_refl 1
    · have hnpos : (0 : ℝ) < n := by linarith
      have hm0 : (0 : ℝ) ≤ 1 - 1/n := by
        have : 1/n ≤ 1 := by
          rw [div_le_one hnpos]
          exact hn
        linarith
      have hbase : 0 ≤ Real.rpow (a * |ph|) n :=
        Real.rpow_nonneg (mul_nonneg ha (abs_nonneg ph)) n
      have h1b : 1 ≤ 1 + Real.rpow (a * |ph|) n := by linarith
      have hden : 1 ≤ Real.rpow (1 + Real.rpow (a * |ph|) n) (1 - 1/n) :=
        Real.one_le_rpow h1b hm0
      have hdpos : 0 < Real.rpow (1 + Real.rpow (a * |ph|) n) (1 - 1/n) :=
        lt_of_lt_of_le one_pos hden
      exact (div_le_one hdpos).mpr hden
  unfold Hydraulic_Properties.get_effective_free_saturation
    Hydraulic_Properties.get_effective_total_saturation
  rw [hbio]
  dsimp only [Hydraulic_Properties.make]
  rw [if_pos rfl]
  dsimp only
  rw [if_pos (by linarith [hets] : (if ph ≥ 0 then (1 : ℝ)
      else 1 / Real.rpow (1 + Real.rpow (a * |ph|) n) (1 - 1/n)) - 1 ≤ 0)]

/-- Witness for the amended claim C6 at a concrete configuration. -/
theorem biomass_saturation_clamp_witness :
    (Hydraulic_Properties.make "van_genuchten_1980" 1 (1/2) 1 1
      2).get_effective_biomass_saturation 2 1 = 1 ∧
    (Hydraulic_Properties.make "van_genuchten_1980" 1 (1/2) 1 1
      2).get_effective_free_saturation (-3) 2 1 = Except.ok 0 :=
  ⟨(biomass_saturation_clamp 1 (1/2) 1 1 2 2 1 (by norm_num) (by norm_num)
      (by norm_num) (by norm_num) (by norm_num) (by norm_num)).1,
   (biomass_saturation_clamp 1 (1/2) 1 1 2 2 1 (by norm_num) (by norm_num)
      (by norm_num) (by norm_num) (by norm_num) (by norm_num)).2 (-3)⟩

/-- Claim C7 counterexample: with a negative biomass concentration and
positive dry density, get_effective_biomass_saturation returns a
negative value, outside the closed interval from 0 to 1: the source
clamps only from above. -/
theorem effective_biomass_saturation_below_zero :
    (Hydraulic_Properties.make "van_genuchten_1980" 1 0 1 1
      2).get_effective_biomass_saturation (-1) 1 < 0 := by
  unfold Hydraulic_Properties.get_effective_biomass_saturation
    Hydraulic_Properties.make
  norm_num

/-- Claim C7 (amended): for every nonnegative biomass concentration,
positive dry density, and configuration whose residual moisture content
is nonnegative and below the saturation moisture content,
get_effective_biomass_saturation lies in the closed interval from 0
to 1. -/
theorem effective_biomass_saturation_range (hp : Hydraulic_Properties)
    (conc density : ℝ) (hconc : 0 ≤ conc) (hdens : 0 < density)
    (hres : 0 ≤ hp.moisture_content_residual)
    (hsat : hp.moisture_content_residual < hp.moisture_content_saturation) :
    0 ≤ hp.get_effective_biomass_saturation conc density ∧
    hp.get_effective_biomass_saturation conc density ≤ 1 := by
  have hsatpos : 0 < hp.moisture_content_saturation := lt_of_le_of_lt hres hsat
  have hr0 : 0 ≤ hp.moisture_content_residual / hp.moisture_content_saturation :=
    div_nonneg hres hsatpos.le
  have hr1 : hp.moisture_content_residual / hp.moisture_content_saturation < 1 :=
    (div_lt_one hsatpos).mpr hsat
  have hdenom : 0 < 1 - hp.moisture_content_residual / hp.moisture_content_saturation := by
    linarith
  have heff : 0 ≤ conc / density /
      (1 - hp.moisture_content_residual / hp.moisture_content_saturation) :=
    div_nonneg (div_nonneg hconc hdens.le) hdenom.le
  unfold Hydraulic_Properties.get_effective_biomass_saturation
  dsimp only
  split_ifs with hgt
  · norm_num
  · exact ⟨heff, not_lt.mp hgt⟩

/-- Witness for the amended claim C7 at a concrete configuration. -/
theorem effective_biomass_saturation_range_witness :
    0 ≤ (Hydraulic_Properties.make "van_genuchten_1980" 1 0 1 1
      2).get_effective_biomass_saturation 2 3 ∧
    (Hydraulic_Properties.make "van_genuchten_1980" 1 0 1 1
      2).get_effective_biomass_saturation 2 3 ≤ 1 :=
  effective_biomass_saturation_range
    (Hydraulic_Properties.make "van_genuchten_1980" 1 0 1 1 2) 2 3
    (by norm_num) (by norm_num)
    (by norm_num [Hydraulic_Properties.make])
    (by norm_num [Hydraulic_Properties.make])

/-- Claim C8: under the empirical family, get_hydraulic_conductivity at
pressure head -100 is exactly Ks times A divided by A plus 100 to the
power 4.74, with A equal to 1.175e6, for every biomass concentration,
dry density and relative-permeability model name. -/
theorem haverkamp_conductivity_closed_form (sat res Ks a n conc density : ℝ)
    (model : String) :
    (Hydraulic_Properties.make "haverkamp_et_al_1977" sat res Ks a
      n).get_hydraulic_conductivity (-100) conc density model =
      Except.ok (Ks * 1175000 / (1175000 + Real.rpow 100 (4.74))) := by
  unfold Hydraulic_Properties.get_hydraulic_conductivity Hydraulic_Properties.make
  dsimp only
  rw [if_pos rfl]
  norm_num

/-- Claim C9: every family name other than the empirical and van
Genuchten ones makes get_specific_moisture_capacity,
get_effective_total_saturation and get_hydraulic_conductivity throw,
and under the van Genuchten family get_hydraulic_conductivity throws
for every relative-permeability model name outside soleimani, clement,
okubo_and_matsumoto and vandevivere. -/
theorem unsupported_model_errors (family model : String)
    (sat res Ks a n ph conc density : ℝ)
    (hf1 : family ≠ "haverkamp_et_al_1977") (hf2 : family ≠ "van_genuchten_1980")
    (hm1 : model ≠ "soleimani") (hm2 : model ≠ "clement")
    (hm3 : model ≠ "okubo_and_matsumoto") (hm4 : model ≠ "vandevivere") :
    (Hydraulic_Properties.make family sat res Ks a
      n).get_specific_moisture_capacity ph = Except.error (-1) ∧
    (Hydraulic_Properties.make family sat res Ks a
      n).get_effective_total_saturation ph = Except.error (-1) ∧
    (Hydraulic_Properties.make family sat res Ks a
      n).get_hydraulic_conductivity ph conc density model = Except.error (-1) ∧
    (Hydraulic_Properties.make "van_genuchten_1980" sat res Ks a
      n).get_hydraulic_conductivity ph conc density model = Except.error (-1) := by
  refine ⟨?_, ?_, ?_, ?_⟩
  · unfold Hydraulic_Properties.get_specific_moisture_capacity
      Hydraulic_Properties.make
    dsimp only
    rw [if_neg hf1, if_neg hf2]
  · unfold Hydraulic_Properties.get_effective_total_saturation
      Hydraulic_Properties.make
    dsimp only
    rw [if_neg hf2]
  · unfold Hydraulic_Properties.get_hydraulic_conductivity
      Hydraulic_Properties.make
    dsimp only
    rw [if_neg hf1, if_neg hf2]
  · unfold Hydraulic_Properties.get_hydraulic_conductivity
      Hydraulic_Properties.get_effective_total_saturation
      Hydraulic_Properties.make
    dsimp only
    rw [if_neg (show ¬("van_genuchten_1980" : String) = "haverkamp_et_al_1977"
      by decide)]
    rw [if_pos rfl, if_pos rfl]
    dsimp only
    rw [if_neg hm1, if_neg hm2, if_neg hm3, if_neg hm4]

/-- Witness for claim C9 with an unrecognized family name. -/
theorem unsupported_model_errors_witness :
    (Hydraulic_Properties.make "foo" 1 0 1 1 2).get_specific_moisture_capacity 0
      = Except.error (-1) :=
  (unsupported_model_errors "foo" "bar" 1 0 1 1 2 0 0 1 (by decide) (by decide)
    (by decide) (by decide) (by decide) (by decide)).1

end Soleimani
